import Mathlib

/-!
Verification of the `kms-encrypt-and-s3-ship.py` pipeline: a shallow embedding of
its logging dispatcher, colour handling, argument validation, target-key
composition, resolver steps and the driver's control flow, with theorems checking
the specification's statements about them.

String operations of the Python runtime (str.split, str.startswith, %-style
formatting, os.path.basename) are embedded as structurally recursive functions on
character lists so that every definition evaluates inside the kernel.
-/

set_option maxHeartbeats 1000000

namespace KmsShip

/- ================================================================
   Python string primitives (structural, kernel-evaluable)
   ================================================================ -/

/-- Whether the first character list is a leading segment of the second. -/
def leadsList : List Char → List Char → Bool
  | [], _ => true
  | _ :: _, [] => false
  | p :: ps, c :: cs => p == c && leadsList ps cs

/-- Python `str.startswith(pat)` for our uses. -/
def pyStartsWith (s pat : String) : Bool :=
  leadsList pat.toList s.toList

/-- Python `str.split(sep)` for a one-character separator: splits at every
occurrence, keeping empty pieces, and yields one empty piece for the empty
string — e.g. splitting "a::b" at a colon gives the three pieces a, empty, b. -/
def pySplitChar (sep : Char) : List Char → List (List Char)
  | [] => [[]]
  | c :: cs =>
    match pySplitChar sep cs with
    | [] => [[]]
    | grp :: rest => if c == sep then [] :: grp :: rest else (c :: grp) :: rest

/-- Python `str.split(sep)` returning strings. -/
def pySplit (s : String) (sep : Char) : List String :=
  (pySplitChar sep s.toList).map String.mk

/-- Python slicing `s[:-1]`: the string without its final character. -/
def pyDropLastChar (s : String) : String :=
  String.mk s.toList.dropLast

/-- `os.path.basename` for POSIX paths: the part after the final slash. -/
def osPathBasename (p : String) : String :=
  ((pySplit p '/').getLast?).getD ""

/- ================================================================
   Colours (source lines 20-61)
   ================================================================ -/

/-- The attribute set of the `Colours` class (lines 20-48): ANSI escape tokens,
or all-empty strings once `__set_nocolor__(True)` has run. -/
structure ColoursState where
  off : String
  red : String
  green : String
  yellow : String
  blue : String
  magenta : String
  cyan : String
deriving DecidableEq

/-- The escape tokens assigned at lines 21-27 and 34-40. -/
def coloursColor : ColoursState :=
  { off := "\x1b[0m", red := "\x1b[91m", green := "\x1b[92m",
    yellow := "\x1b[93m", blue := "\x1b[94m", magenta := "\x1b[95m",
    cyan := "\x1b[96m" }

/-- The all-empty assignment at lines 42-48. -/
def coloursNone : ColoursState :=
  { off := "", red := "", green := "", yellow := "", blue := "",
    magenta := "", cyan := "" }

/-- `Colours.__set_nocolor__` (lines 32-48). -/
def setNocolor (nocolor : Bool) : ColoursState :=
  if nocolor then coloursNone else coloursColor

/-- The truthiness computed at lines 51-61:
`bool(os.environ.get('nocolor', os.environ.get('NOCOLOR', False)))`.
The inner `get` yields the string value of `NOCOLOR` when that variable is set
(even to the empty string) and the Python bool `False` otherwise; the outer
`get` likewise prefers a set `nocolor`. `bool` maps a string to true exactly
when it is non-empty, and `bool(False)` is false. -/
def nocolorFromEnv (lower upper : Option String) : Bool :=
  match lower with
  | some s => s != ""
  | none =>
    match upper with
    | some s => s != ""
    | none => false

/-- The module-level `COLOURS` instance as built at line 51 during import. -/
def coloursAtImport (lower upper : Option String) : ColoursState :=
  setNocolor (nocolorFromEnv lower upper)

/- ================================================================
   LevelFormatter (source lines 129-146) and the Logger's format dict
   (lines 79-85)
   ================================================================ -/

/-- The format dictionary passed to `LevelFormatter` in `Logger.__init__`
(lines 79-85), with the colour values of the `COLOURS` instance interpolated by
the f-strings at construction time. -/
def loggerFormats (c : ColoursState) : List (Int × String) :=
  [ (5,  c.magenta ++ "TRACE: %(message)s" ++ c.off),
    (10, c.cyan ++ "%(levelname)s: %(message)s" ++ c.off),
    (20, "%(message)s"),
    (30, c.green ++ "%(levelname)s: %(message)s" ++ c.off),
    (40, c.red ++ "%(levelname)s: %(message)s" ++ c.off),
    (50, c.yellow ++ "%(levelname)s: %(message)s" ++ c.off) ]

/-- `LevelFormatter.__init__` (lines 139-141): `self.formats = sorted(...)`.
The dict keys are unique, so Python's stable tuple sort orders the pairs by
level and never compares the second components; any stable sort computes the
same list. -/
def LevelFormatter.init (formats : List (Int × String)) : List (Int × String) :=
  List.insertionSort (fun a b => a.1 ≤ b.1) formats

/-- The index computed at line 144:
`bisect(self.formats, (record.levelno,), hi=len(self.formats)-1)`.
Under Python tuple ordering `(level, formatter) <= (levelno,)` holds exactly
when `level < levelno`, so the right-insertion point of the key inside the
sorted slice `formats[0:len-1]` is the number of entries of that slice whose
level is strictly below the record's level. -/
def pyBisect (formats : List (Int × String)) (levelno : Int) : Nat :=
  (formats.take (formats.length - 1)).countP (fun r => decide (r.1 < levelno))

/-- `LevelFormatter.format` (lines 143-146): look up `self.formats[idx]`.
`none` models an `IndexError`. -/
def LevelFormatter.format (formats : List (Int × String)) (levelno : Int) :
    Option (Int × String) :=
  formats[pyBisect formats levelno]?

/-- One left-to-right pass of Python `%`-style formatting restricted to the two
fields the templates at lines 79-85 use, with explicit fuel (one unit per
consumed character, so the template's own length suffices). Substituted values
are emitted verbatim and never rescanned, exactly as `fmt % record.__dict__`
behaves. -/
def substFields (levelname message : String) : Nat → List Char → List Char
  | 0, s => s
  | _ + 1, [] => []
  | fuel + 1, c :: cs =>
    if leadsList "%(levelname)s".toList (c :: cs) then
      levelname.toList ++ substFields levelname message fuel ((c :: cs).drop 13)
    else if leadsList "%(message)s".toList (c :: cs) then
      message.toList ++ substFields levelname message fuel ((c :: cs).drop 11)
    else
      c :: substFields levelname message fuel cs

/-- Render one record through a template: `formatter.format(record)` for a
formatter whose format string is `tmpl`. -/
def renderTemplate (tmpl levelname message : String) : String :=
  String.mk (substFields levelname message tmpl.toList.length tmpl.toList)

/- ================================================================
   Logger construction order (lines 51, 74-92, 218-219, 255)
   ================================================================ -/

/-- The module state after `logger = Logger()` has run at import (line 255):
the mutable `COLOURS` instance, plus the handler's format strings, which the
f-strings of `Logger.__init__` (lines 79-85) baked in from the colour values
current at that moment. -/
structure StartupState where
  colours : ColoursState
  formats : List (Int × String)
deriving DecidableEq

/-- Import-time initialisation: `COLOURS = Colours(...)` (line 51) followed by
`logger = Logger()` (line 255). -/
def importTime (lower upper : Option String) : StartupState :=
  { colours := coloursAtImport lower upper,
    formats := LevelFormatter.init (loggerFormats (coloursAtImport lower upper)) }

/-- The effect of `parseArgs` on the colour state (lines 218-219): a true
`--nocolor` flag calls `COLOURS.__set_nocolor__(True)`, mutating the instance;
the format strings already stored inside the logger's formatter are untouched. -/
def afterParseArgs (st : StartupState) (nocolorFlag : Bool) : StartupState :=
  if nocolorFlag then { st with colours := setNocolor true } else st

/-- The line the logger renders for a record: rule lookup through
`LevelFormatter.format`, then template substitution. -/
def emitRendered (st : StartupState) (levelno : Int) (levelname message : String) :
    Option String :=
  (LevelFormatter.format st.formats levelno).map
    (fun r => renderTemplate r.2 levelname message)

/- ================================================================
   Output-stream routing (lines 74-92, 104-126)
   ================================================================ -/

inductive OutStream
  | stdout
  | stderr
deriving DecidableEq

/-- `StreamHandler()` is constructed with no stream argument (line 75); the
documented default stream of `logging.StreamHandler` is `sys.stderr`. -/
def handlerStream : OutStream := OutStream.stderr

/-- `handler.setLevel(1)` (line 88). -/
def handlerLevel : Int := 1

/-- Emission of one record: the logging module hands a record to the handler
when its level passes the logger's configured level, and the handler writes the
rendered line plus its newline terminator to its stream when the record's level
also passes the handler's level. `none` models a dropped record. -/
def loggerEmit (loggerLevel levelno : Int) (rendered : String) :
    Option (OutStream × String) :=
  if loggerLevel ≤ levelno ∧ handlerLevel ≤ levelno then
    some (handlerStream, rendered ++ "\n")
  else none

/- ================================================================
   Argument handling (parseArgs, lines 161-249)
   ================================================================ -/

/-- The command line as argparse delivers it (lines 163-214): positionals,
store-true flags, and optional string flags (`none` when absent). -/
structure CliArgs where
  source : String
  destination : Option String
  overwrite : Bool
  kmsFlag : Option String
  s3Flag : Option String
  debugFlag : Bool
  traceFlag : Bool
  nocolorFlag : Bool
  contextFlag : Option String
  targetPathFlag : Option String
deriving DecidableEq

/-- The environment variables the program reads (`none` when unset). -/
structure EnvVars where
  kmsArnVar : Option String
  s3BucketVar : Option String
  debugVar : Option String
  traceVar : Option String
  awsRegionVar : Option String
  awsDefaultRegionVar : Option String
deriving DecidableEq

/-- One run's externally determined facts: command line, environment, the
fully-qualified hostname `socket.getfqdn()` returns, the UTC timestamp
`strftime` produces, which paths exist, the metadata-service responses, and the
encryption child's returncode. -/
structure World where
  cli : CliArgs
  env : EnvVars
  fqdn : String
  utcTimestamp : String
  pathExists : String → Bool
  metadataRegion : Except String String
  iamInfoArn : Option String
  sopsReturncode : Int

/-- The exceptions the script can raise. `missingCritical` carries the issue
list joined into the message at line 237; `fileNotFound` and `fileExists` are
the errors of lines 240 and 243; `requestError` is the wrapper of line 277;
`noAccountId` the error of line 287; `indexError` the uncaught list indexing
error possible at line 288. -/
inductive PyError
  | missingCritical (issues : List String)
  | fileNotFound (msg : String)
  | fileExists (msg : String)
  | requestError (msg : String)
  | noAccountId
  | indexError
deriving DecidableEq

/-- 'not value or value is None' (lines 232, 234) for an optional string:
Python falsiness — absent, or present but empty. -/
def pyStrMissing : Option String → Bool
  | none => true
  | some s => s == ""

/-- `--kms-arn` with `default=os.environ.get('KMS_ARN', None)` (line 182). -/
def kmsArnOf (w : World) : Option String :=
  w.cli.kmsFlag <|> w.env.kmsArnVar

/-- `--s3-bucket` with `default=os.environ.get('S3_BUCKET', None)` (line 186). -/
def s3BucketOf (w : World) : Option String :=
  w.cli.s3Flag <|> w.env.s3BucketVar

/-- `--context` with `default=socket.getfqdn()` (line 206). -/
def contextOf (w : World) : String :=
  (w.cli.contextFlag).getD w.fqdn

/-- The destination after the default of lines 215-216: when no destination
was given, source + '.' + UTC timestamp + 'z.' + context + '.enc'. -/
def destinationOf (w : World) : String :=
  match w.cli.destination with
  | some d => d
  | none =>
    w.cli.source ++ "." ++ w.utcTimestamp ++ "z." ++ contextOf w ++ ".enc"

/-- `len(os.environ.get(name, "")) > 0` (lines 221, 225). -/
def envNonEmpty : Option String → Bool
  | some s => s.length > 0
  | none => false

/-- The target object key computed at line 245:
`target_path + ('/' if len(target_path) > 0 and target_path[:-1] != '/' else '') + basename(destination)`.
Note the guard slices off the final character (`[:-1]`) and compares what is
left against a single slash. -/
def computeTarget (targetPath destination : String) : String :=
  targetPath
    ++ (if targetPath.length > 0 ∧ pyDropLastChar targetPath ≠ "/" then "/" else "")
    ++ osPathBasename destination

/-- Modelled from the spec (sections 3 and 4.2): the result object key is the
target path joined with the base name using exactly one separator — a
non-empty path not already ending in the separator gets one appended, an empty
path yields the bare name. For comparison with `computeTarget`. -/
def specResultObjectKey (targetPath baseName : String) : String :=
  if targetPath = "" then baseName
  else if pyStartsWith (String.mk targetPath.toList.reverse) "/" then
    targetPath ++ baseName
  else targetPath ++ "/" ++ baseName

/-- The validated-argument record `parseArgs` returns (line 249). -/
structure ParsedArgs where
  source : String
  destination : String
  overwrite : Bool
  kms_arn : String
  s3_bucket : String
  context : String
  target_path : String
  target : String
  debug : Bool
  trace : Bool
  nocolor : Bool
deriving DecidableEq

/-- `parseArgs` (lines 161-249): destination defaulting, debug/trace toggles,
the missing-critical-values check (lines 231-237), the source-exists check
(lines 239-240), the destination-collision check (lines 242-243), and the
target-key computation (line 245), in the source's order. The colour mutation
of lines 218-219 acts on the module state and is modelled by
`afterParseArgs`. -/
def parseArgs (w : World) : Except PyError ParsedArgs :=
  let destination := destinationOf w
  let debug := w.cli.debugFlag || envNonEmpty w.env.debugVar
  let tra := w.cli.traceFlag || envNonEmpty w.env.traceVar
  let issues :=
    (if pyStrMissing (kmsArnOf w) then ["KMS_ARN"] else [])
      ++ (if pyStrMissing (s3BucketOf w) then ["S3_BUCKET"] else [])
  if issues ≠ [] then
    Except.error (PyError.missingCritical issues)
  else if ¬ w.pathExists w.cli.source then
    Except.error (PyError.fileNotFound ("Missing source file " ++ w.cli.source))
  else if w.pathExists destination ∧ ¬ w.cli.overwrite then
    Except.error (PyError.fileExists ("File " ++ destination ++ " already exists"))
  else
    Except.ok
      { source := w.cli.source
        destination := destination
        overwrite := w.cli.overwrite
        kms_arn := (kmsArnOf w).getD ""
        s3_bucket := (s3BucketOf w).getD ""
        context := contextOf w
        target_path := (w.cli.targetPathFlag).getD ""
        target := computeTarget ((w.cli.targetPathFlag).getD "") destination
        debug := debug
        trace := tra
        nocolor := w.cli.nocolorFlag }

/- ================================================================
   Driver (main, lines 257-353)
   ================================================================ -/

/-- The externally visible steps of a run, in the order the parent thread
performs them. -/
inductive Action
  | regionMetadataCall
  | iamMetadataCall
  | copyFile
  | spawnEncryption
  | waitChild
  | joinStdout
  | joinStderr
  | s3Upload
  | logInfoLine
  | logErrorLine
deriving DecidableEq

/-- Region resolution (lines 260-277): `AWS_REGION`, else `AWS_DEFAULT_REGION`
(a set-but-empty `AWS_REGION` still wins, as with `os.environ.get`), else one
bounded metadata-service request whose failure is wrapped into an exception. -/
def regionResolve (w : World) : List Action × Except PyError String :=
  match w.env.awsRegionVar <|> w.env.awsDefaultRegionVar with
  | some r => ([], Except.ok r)
  | none =>
    match w.metadataRegion with
    | Except.ok r => ([Action.regionMetadataCall], Except.ok r)
    | Except.error e =>
      ([Action.regionMetadataCall], Except.error (PyError.requestError e))

/-- The account-id extraction of line 288: `iam_arn.split(":")[4]`, the fifth
colon-separated field; `none` models the `IndexError` raised when the split
has fewer than five fields. -/
def accountIdOfInstanceProfileArn (iamArn : String) : Option String :=
  (pySplit iamArn ':')[4]?

/-- KMS-ARN completion (lines 279-289): when the configured identifier starts
with 'alias/' or 'key/', query instance metadata for the IAM info, fail with
the no-account-id error when the `InstanceProfileArn` field is absent,
otherwise take the fifth colon-separated field of that ARN as the account id
and synthesise the full ARN. -/
def kmsResolve (w : World) (region kmsArn : String) :
    List Action × Except PyError String :=
  if pyStartsWith kmsArn "alias/" || pyStartsWith kmsArn "key/" then
    match w.iamInfoArn with
    | none => ([Action.iamMetadataCall], Except.error PyError.noAccountId)
    | some iamArn =>
      match accountIdOfInstanceProfileArn iamArn with
      | none => ([Action.iamMetadataCall], Except.error PyError.indexError)
      | some accountId =>
        ([Action.iamMetadataCall],
         Except.ok ("arn:aws:kms:" ++ region ++ ":" ++ accountId ++ ":" ++ kmsArn))
  else ([], Except.ok kmsArn)

/-- How `main` ends: normal return, `exit(n)` (a `SystemExit`, which the
top-level `except Exception` does not catch), or a raised exception. -/
inductive MainResult
  | ok
  | sysExit (code : Nat)
  | exc (e : PyError)
deriving DecidableEq

/-- `main` (lines 257-345) as the parent thread's sequence of steps:
`parseArgs`; region resolution; KMS-ARN completion; copy the source over the
destination (line 291); spawn the encryption child with both pipes (line 303)
and start the two drain threads; `process.wait()` (line 327); join the stdout
drain, then the stderr drain (lines 328-329); on a positive returncode,
`exit(1)` (lines 330-331) — the upload is never reached; otherwise upload the
destination to the bucket under the target key (line 338) and log the one
Info-level status line (line 344). -/
def mainRun (w : World) : List Action × MainResult :=
  match parseArgs w with
  | Except.error e => ([], MainResult.exc e)
  | Except.ok a =>
    match regionResolve w with
    | (tr1, Except.error e) => (tr1, MainResult.exc e)
    | (tr1, Except.ok region) =>
      match kmsResolve w region a.kms_arn with
      | (tr2, Except.error e) => (tr1 ++ tr2, MainResult.exc e)
      | (tr2, Except.ok _) =>
        if 0 < w.sopsReturncode then
          (tr1 ++ tr2 ++
            [Action.copyFile, Action.spawnEncryption, Action.waitChild,
             Action.joinStdout, Action.joinStderr],
           MainResult.sysExit 1)
        else
          (tr1 ++ tr2 ++
            [Action.copyFile, Action.spawnEncryption, Action.waitChild,
             Action.joinStdout, Action.joinStderr, Action.s3Upload,
             Action.logInfoLine],
           MainResult.ok)

/-- The `if __name__ == "__main__"` wrapper (lines 348-353): a normal return
exits 0; a `SystemExit` passes through with its code; any `Exception` is
logged at Error severity and the process exits 1. Yields the run's step trace
and its exit code. -/
def program (w : World) : List Action × Nat :=
  match mainRun w with
  | (tr, MainResult.ok) => (tr, 0)
  | (tr, MainResult.sysExit n) => (tr, n)
  | (tr, MainResult.exc _) => (tr ++ [Action.logErrorLine], 1)

/- ================================================================
   Auxiliary definitions used by the verification
   ================================================================ -/

/-- The rule list held by the logger the script builds when colour is
enabled. -/
def loggerRulesColor : List (Int × String) :=
  LevelFormatter.init (loggerFormats coloursColor)

/-- Reference selection on a sorted rule list: the first rule whose threshold
is at or above the level, or the final rule when every threshold is below it.
The bisect-based lookup is proved equal to this on sorted lists. -/
def firstGE : List (Int × String) → Int → Option (Int × String)
  | [], _ => none
  | [r], _ => some r
  | r :: q :: rest, x => if x ≤ r.1 then some r else firstGE (q :: rest) x

/-- A run whose encryption child exits with status 2: source exists,
destination free, full KMS ARN and bucket given, region from the
environment. -/
def wEncFail : World :=
  { cli := { source := "in.txt", destination := some "out.enc", overwrite := false,
             kmsFlag := some "arn:aws:kms:eu-west-1:210987654321:key/abc",
             s3Flag := some "bkt", debugFlag := false, traceFlag := false,
             nocolorFlag := false, contextFlag := none, targetPathFlag := none },
    env := { kmsArnVar := none, s3BucketVar := none, debugVar := none,
             traceVar := none, awsRegionVar := some "eu-west-1",
             awsDefaultRegionVar := none },
    fqdn := "host1", utcTimestamp := "2026-10-12T00-00-00",
    pathExists := fun p => p == "in.txt",
    metadataRegion := Except.error "down", iamInfoArn := none,
    sopsReturncode := 2 }

/-- The record `parseArgs` returns on `wEncFail`. -/
def pArgsEncFail : ParsedArgs :=
  { source := "in.txt", destination := "out.enc", overwrite := false,
    kms_arn := "arn:aws:kms:eu-west-1:210987654321:key/abc", s3_bucket := "bkt",
    context := "host1", target_path := "", target := "out.enc",
    debug := false, trace := false, nocolor := false }

/-- A run where the destination already exists and overwrite is off, but the
KMS identifier is missing from both flag and environment. -/
def wMissingKms : World :=
  { cli := { source := "in.txt", destination := some "out.enc", overwrite := false,
             kmsFlag := none, s3Flag := some "bkt", debugFlag := false,
             traceFlag := false, nocolorFlag := false, contextFlag := none,
             targetPathFlag := none },
    env := { kmsArnVar := none, s3BucketVar := none, debugVar := none,
             traceVar := none, awsRegionVar := some "eu-west-1",
             awsDefaultRegionVar := none },
    fqdn := "host1", utcTimestamp := "2026-10-12T00-00-00",
    pathExists := fun _ => true,
    metadataRegion := Except.error "down", iamInfoArn := none,
    sopsReturncode := 0 }

/-- A run where the destination already exists, overwrite is off, and all other
validations pass. -/
def wCollision : World :=
  { cli := { source := "in.txt", destination := some "out.enc", overwrite := false,
             kmsFlag := some "arn:aws:kms:eu-west-1:210987654321:key/abc",
             s3Flag := some "bkt", debugFlag := false, traceFlag := false,
             nocolorFlag := false, contextFlag := none, targetPathFlag := none },
    env := { kmsArnVar := none, s3BucketVar := none, debugVar := none,
             traceVar := none, awsRegionVar := some "eu-west-1",
             awsDefaultRegionVar := none },
    fqdn := "host1", utcTimestamp := "2026-10-12T00-00-00",
    pathExists := fun _ => true,
    metadataRegion := Except.error "down", iamInfoArn := none,
    sopsReturncode := 0 }

/-- A run with no destination argument and no context flag, so both default. -/
def wSynth : World :=
  { cli := { source := "in.txt", destination := none, overwrite := false,
             kmsFlag := some "arn:aws:kms:eu-west-1:210987654321:key/abc",
             s3Flag := some "bkt", debugFlag := false, traceFlag := false,
             nocolorFlag := false, contextFlag := none, targetPathFlag := none },
    env := { kmsArnVar := none, s3BucketVar := none, debugVar := none,
             traceVar := none, awsRegionVar := some "eu-west-1",
             awsDefaultRegionVar := none },
    fqdn := "host1", utcTimestamp := "2026-10-12T00-00-00",
    pathExists := fun p => p == "in.txt",
    metadataRegion := Except.error "down", iamInfoArn := none,
    sopsReturncode := 0 }

/-- The record `parseArgs` returns on `wSynth`. -/
def pArgsSynth : ParsedArgs :=
  { source := "in.txt", destination := "in.txt.2026-10-12T00-00-00z.host1.enc",
    overwrite := false,
    kms_arn := "arn:aws:kms:eu-west-1:210987654321:key/abc", s3_bucket := "bkt",
    context := "host1", target_path := "",
    target := "in.txt.2026-10-12T00-00-00z.host1.enc",
    debug := false, trace := false, nocolor := false }

/-- A run whose instance-profile ARN has fewer than five colon-separated
fields, with an alias-form KMS identifier. -/
def wIamShort : World :=
  { cli := { source := "in.txt", destination := some "out.enc", overwrite := false,
             kmsFlag := some "alias/my-key", s3Flag := some "bkt",
             debugFlag := false, traceFlag := false, nocolorFlag := false,
             contextFlag := none, targetPathFlag := none },
    env := { kmsArnVar := none, s3BucketVar := none, debugVar := none,
             traceVar := none, awsRegionVar := some "eu-west-1",
             awsDefaultRegionVar := none },
    fqdn := "host1", utcTimestamp := "2026-10-12T00-00-00",
    pathExists := fun p => p == "in.txt",
    metadataRegion := Except.error "down", iamInfoArn := some "arn:aws",
    sopsReturncode := 0 }

/- ================================================================
   Helper lemmas about the formatter lookup
   ================================================================ -/

theorem firstGE_mem (l : List (Int × String)) (x : Int) :
    ∀ r : Int × String, firstGE l x = some r → r ∈ l := by
  induction l with
  | nil => intro r hr; simp [firstGE] at hr
  | cons a tail ih =>
    intro r hr
    cases tail with
    | nil =>
      simp only [firstGE, Option.some.injEq] at hr
      simp [← hr]
    | cons b t2 =>
      simp only [firstGE] at hr
      by_cases hx : x ≤ a.1
      · rw [if_pos hx] at hr
        simp only [Option.some.injEq] at hr
        simp [← hr]
      · rw [if_neg hx] at hr
        exact List.mem_cons_of_mem _ (ih r hr)

theorem firstGE_least (l : List (Int × String)) (x : Int) :
    List.Pairwise (fun a b : Int × String => a.1 < b.1) l →
    ∀ r : Int × String, firstGE l x = some r →
    ∀ q ∈ l, x ≤ q.1 → x ≤ r.1 ∧ r.1 ≤ q.1 := by
  induction l with
  | nil => intro _ r hr; simp [firstGE] at hr
  | cons a tail ih =>
    intro hs r hr q hq hxq
    rcases List.pairwise_cons.mp hs with ⟨ha, hs2⟩
    cases tail with
    | nil =>
      simp only [firstGE, Option.some.injEq] at hr
      subst hr
      rcases List.mem_singleton.mp hq with rfl
      exact ⟨hxq, le_refl _⟩
    | cons b t2 =>
      simp only [firstGE] at hr
      by_cases hx : x ≤ a.1
      · rw [if_pos hx] at hr
        simp only [Option.some.injEq] at hr
        subst hr
        refine ⟨hx, ?_⟩
        rcases List.mem_cons.mp hq with rfl | hq2
        · exact le_refl _
        · exact le_of_lt (ha q hq2)
      · rw [if_neg hx] at hr
        rcases List.mem_cons.mp hq with rfl | hq2
        · exact absurd hxq hx
        · exact ih hs2 r hr q hq2 hxq

theorem firstGE_last (l : List (Int × String)) (x : Int) :
    ∀ hne : l ≠ [], (∀ q ∈ l, q.1 < x) →
    firstGE l x = some (l.getLast hne) := by
  induction l with
  | nil => intro hne; exact absurd rfl hne
  | cons a tail ih =>
    intro hne hall
    cases tail with
    | nil => simp [firstGE, List.getLast]
    | cons b t2 =>
      have hax : a.1 < x := hall a (List.mem_cons_self a _)
      have hx : ¬ x ≤ a.1 := not_le.mpr hax
      simp only [firstGE, if_neg hx]
      rw [List.getLast_cons (by simp : (b :: t2) ≠ [])]
      exact ih (by simp) (fun q hq => hall q (List.mem_cons_of_mem _ hq))

theorem firstGE_mono (l : List (Int × String)) (x y : Int) (hxy : x ≤ y) :
    List.Pairwise (fun a b : Int × String => a.1 < b.1) l →
    ∀ rx ry : Int × String, firstGE l x = some rx → firstGE l y = some ry →
    rx.1 ≤ ry.1 := by
  induction l with
  | nil => intro _ rx ry hx; simp [firstGE] at hx
  | cons a tail ih =>
    intro hs rx ry hx hy
    rcases List.pairwise_cons.mp hs with ⟨ha, hs2⟩
    cases tail with
    | nil =>
      simp only [firstGE, Option.some.injEq] at hx hy
      subst hx; subst hy
      exact le_refl _
    | cons b t2 =>
      simp only [firstGE] at hx hy
      by_cases hya : y ≤ a.1
      · have hxa : x ≤ a.1 := le_trans hxy hya
        rw [if_pos hxa] at hx
        rw [if_pos hya] at hy
        simp only [Option.some.injEq] at hx hy
        subst hx; subst hy
        exact le_refl _
      · rw [if_neg hya] at hy
        by_cases hxa : x ≤ a.1
        · rw [if_pos hxa] at hx
          simp only [Option.some.injEq] at hx
          subst hx
          exact le_of_lt (ha ry (firstGE_mem _ y ry hy))
        · rw [if_neg hxa] at hx
          exact ih hs2 rx ry hx hy

theorem format_eq_firstGE (l : List (Int × String)) (x : Int) :
    List.Pairwise (fun a b : Int × String => a.1 < b.1) l →
    LevelFormatter.format l x = firstGE l x := by
  induction l with
  | nil => intro _; rfl
  | cons a tail ih =>
    intro hs
    rcases List.pairwise_cons.mp hs with ⟨ha, hs2⟩
    cases tail with
    | nil => rfl
    | cons b t2 =>
      have htake : (a :: b :: t2).take ((a :: b :: t2).length - 1)
          = a :: (b :: t2).take ((b :: t2).length - 1) := by
        simp [List.take_succ_cons]
      have hb : pyBisect (a :: b :: t2) x
          = pyBisect (b :: t2) x + (if a.1 < x then 1 else 0) := by
        unfold pyBisect
        rw [htake, List.countP_cons]
        simp
      by_cases hx : x ≤ a.1
      · have hz : pyBisect (b :: t2) x = 0 := by
          unfold pyBisect
          rw [List.countP_eq_zero]
          intro q hq
          have hq2 : q ∈ b :: t2 := List.mem_of_mem_take hq
          have hlt : a.1 < q.1 := ha q hq2
          simp only [decide_eq_true_eq]
          omega
        have hidx : pyBisect (a :: b :: t2) x = 0 := by
          rw [hb, hz, if_neg (by omega : ¬ a.1 < x)]
        unfold LevelFormatter.format
        rw [hidx]
        simp [firstGE, if_pos hx]
      · have hx2 : a.1 < x := not_le.mp hx
        have hidx : pyBisect (a :: b :: t2) x = pyBisect (b :: t2) x + 1 := by
          rw [hb, if_pos hx2]
        have hih := ih hs2
        unfold LevelFormatter.format at hih ⊢
        rw [hidx, List.getElem?_cons_succ, hih]
        simp [firstGE, if_neg hx]

theorem format_isSome (l : List (Int × String)) (x : Int) (hne : l ≠ []) :
    (LevelFormatter.format l x).isSome = true := by
  have h1 : pyBisect l x ≤ (l.take (l.length - 1)).length :=
    List.countP_le_length _
  rw [List.length_take] at h1
  have h2 : 0 < l.length := List.length_pos.mpr hne
  have h4 : (l.length - 1) ⊓ l.length ≤ l.length - 1 := min_le_left _ _
  have h3 : pyBisect l x < l.length := by omega
  unfold LevelFormatter.format
  rw [List.getElem?_eq_getElem h3]
  rfl

theorem format_head (l : List (Int × String)) (x : Int) (hne : l ≠ [])
    (hlow : ∀ q ∈ l, x < q.1) :
    LevelFormatter.format l x = some (l.head hne) := by
  have hz : pyBisect l x = 0 := by
    unfold pyBisect
    rw [List.countP_eq_zero]
    intro q hq
    have hq2 := hlow q (List.mem_of_mem_take hq)
    simp only [decide_eq_true_eq]
    omega
  unfold LevelFormatter.format
  rw [hz]
  cases l with
  | nil => exact absurd rfl hne
  | cons a t => simp

theorem regionResolve_trace (w : World) :
    (regionResolve w).1 = []
      ∨ (regionResolve w).1 = [Action.regionMetadataCall] := by
  rcases h : w.env.awsRegionVar <|> w.env.awsDefaultRegionVar with _ | r
  · rcases h2 : w.metadataRegion with r | e <;> simp [regionResolve, h, h2]
  · simp [regionResolve, h]

theorem kmsResolve_trace (w : World) (region kmsArn : String) :
    (kmsResolve w region kmsArn).1 = []
      ∨ (kmsResolve w region kmsArn).1 = [Action.iamMetadataCall] := by
  by_cases h : (pyStartsWith kmsArn "alias/" || pyStartsWith kmsArn "key/") = true
  · rcases h2 : w.iamInfoArn with _ | arn
    · simp [kmsResolve, h, h2]
    · rcases h3 : accountIdOfInstanceProfileArn arn with _ | acc <;>
        simp [kmsResolve, h, h2, h3]
  · simp [kmsResolve, h]

/- ================================================================
   Claim theorems
   ================================================================ -/

/-- Claim C1: the computed result object key should equal the target path
joined with the destination's basename using exactly one separator, never a
double separator. The code computes the join guard from the target path with
its final character sliced off, so a path already ending in the separator gets
a second separator appended: for target path "backups/" and basename
"file.enc" the code yields "backups//file.enc" while the one-separator join is
"backups/file.enc". -/
theorem C1_target_key_double_separator :
    computeTarget "backups/" "file.enc" = "backups//file.enc"
  ∧ specResultObjectKey "backups/" "file.enc" = "backups/file.enc"
  ∧ computeTarget "backups/" "file.enc"
      ≠ specResultObjectKey "backups/" "file.enc" := by
  refine ⟨by decide, by decide, by decide⟩

/-- Claim C2, counterexample to the claim as stated: at event level 25 under
the logger's ascending rules with thresholds 5, 10, 20, 30, 40, 50, the lookup
selects the rule with threshold 30, while the greatest threshold at or below
25 is 20. -/
theorem C2_counterexample :
    (LevelFormatter.format loggerRulesColor 25).map Prod.fst = some 30
  ∧ (20 : Int) ∈ loggerRulesColor.map Prod.fst
  ∧ (20 : Int) ≤ 25
  ∧ (∀ t ∈ loggerRulesColor.map Prod.fst, t ≤ 25 → t ≤ 20)
  ∧ (30 : Int) ≠ 20 := by decide

/-- Claim C2, amended: on any ascending rule set the lookup selects the rule
with the smallest threshold at or above the event level; when every threshold
is below the level it falls back to the highest-threshold (final) rule; and
the selection is monotone in the event level. -/
theorem C2_lookup_least_ge_monotone (formats : List (Int × String))
    (hs : List.Pairwise (fun a b : Int × String => a.1 < b.1) formats)
    (hne : formats ≠ []) (x y : Int) (hxy : x ≤ y) :
    (∀ r : Int × String, LevelFormatter.format formats x = some r →
        (∀ q ∈ formats, x ≤ q.1 → x ≤ r.1 ∧ r.1 ≤ q.1)
      ∧ ((∀ q ∈ formats, q.1 < x) → r = formats.getLast hne))
  ∧ (∀ rx ry : Int × String, LevelFormatter.format formats x = some rx →
      LevelFormatter.format formats y = some ry → rx.1 ≤ ry.1) := by
  have hfx := format_eq_firstGE formats x hs
  have hfy := format_eq_firstGE formats y hs
  constructor
  · intro r hr
    rw [hfx] at hr
    constructor
    · intro q hq hxq
      exact firstGE_least formats x hs r hr q hq hxq
    · intro hall
      have hlast := firstGE_last formats x hne hall
      rw [hr] at hlast
      exact Option.some.inj hlast
  · intro rx ry hx hy
    rw [hfx] at hx
    rw [hfy] at hy
    exact firstGE_mono formats x y hxy hs rx ry hx hy

/-- Witness for C2 on the logger's actual rules at levels 25 and 31. -/
theorem C2_witness :
    (LevelFormatter.format loggerRulesColor 25).map Prod.fst = some 30
  ∧ (LevelFormatter.format loggerRulesColor 31).map Prod.fst = some 40
  ∧ (∀ rx ry : Int × String, LevelFormatter.format loggerRulesColor 25 = some rx →
      LevelFormatter.format loggerRulesColor 31 = some ry → rx.1 ≤ ry.1) := by
  refine ⟨by decide, by decide, ?_⟩
  exact (C2_lookup_least_ge_monotone loggerRulesColor (by decide) (by decide)
    25 31 (by decide)).2

/-- Claim C3: when the encryption child terminates with a non-zero exit status
(modelled as a positive returncode, as every normally terminating process
yields a non-negative one), the parent's step sequence ends with the child
wait followed by the stdout join and the stderr join, no upload step ever
appears, and the process exits with code 1. -/
theorem C3_encryption_failure_aborts (w : World) (a : ParsedArgs)
    (r k : String) (s : Nat)
    (hp : parseArgs w = Except.ok a)
    (hr : (regionResolve w).2 = Except.ok r)
    (hk : (kmsResolve w r a.kms_arn).2 = Except.ok k)
    (hrc : w.sopsReturncode = (s : Int))
    (hsnz : s ≠ 0) :
    mainRun w =
      ((regionResolve w).1 ++ (kmsResolve w r a.kms_arn).1 ++
        [Action.copyFile, Action.spawnEncryption, Action.waitChild,
         Action.joinStdout, Action.joinStderr],
       MainResult.sysExit 1)
  ∧ program w =
      ((regionResolve w).1 ++ (kmsResolve w r a.kms_arn).1 ++
        [Action.copyFile, Action.spawnEncryption, Action.waitChild,
         Action.joinStdout, Action.joinStderr], 1)
  ∧ Action.s3Upload ∉ (mainRun w).1 := by
  have hpos : 0 < w.sopsReturncode := by
    rw [hrc]
    omega
  rcases hReg : regionResolve w with ⟨tr1, res1⟩
  rw [hReg] at hr
  simp only at hr
  subst hr
  rcases hKms : kmsResolve w r a.kms_arn with ⟨tr2, res2⟩
  rw [hKms] at hk
  simp only at hk
  subst hk
  have hmain : mainRun w =
      (tr1 ++ tr2 ++ [Action.copyFile, Action.spawnEncryption, Action.waitChild,
        Action.joinStdout, Action.joinStderr], MainResult.sysExit 1) := by
    simp only [mainRun, hp, hReg, hKms]
    simp [hpos]
  have h1 : Action.s3Upload ∉ tr1 := by
    have htr := regionResolve_trace w
    rw [hReg] at htr
    rcases htr with h | h <;> (simp only at h; subst h; decide)
  have h2 : Action.s3Upload ∉ tr2 := by
    have htr := kmsResolve_trace w r a.kms_arn
    rw [hKms] at htr
    rcases htr with h | h <;> (simp only at h; subst h; decide)
  refine ⟨?_, ?_, ?_⟩
  · simpa using hmain
  · simp only [program, hmain]
  · rw [hmain]
    simp only [List.mem_append, List.mem_cons, List.mem_singleton]
    intro hmem
    rcases hmem with (hmem | hmem) | hmem
    · exact h1 hmem
    · exact h2 hmem
    · simp at hmem

/-- Witness for C3 on a concrete failing run. -/
theorem C3_witness :
    mainRun wEncFail =
      ((regionResolve wEncFail).1 ++
        (kmsResolve wEncFail "eu-west-1" pArgsEncFail.kms_arn).1 ++
        [Action.copyFile, Action.spawnEncryption, Action.waitChild,
         Action.joinStdout, Action.joinStderr],
       MainResult.sysExit 1)
  ∧ program wEncFail =
      ((regionResolve wEncFail).1 ++
        (kmsResolve wEncFail "eu-west-1" pArgsEncFail.kms_arn).1 ++
        [Action.copyFile, Action.spawnEncryption, Action.waitChild,
         Action.joinStdout, Action.joinStderr], 1)
  ∧ Action.s3Upload ∉ (mainRun wEncFail).1 :=
  C3_encryption_failure_aborts wEncFail pArgsEncFail "eu-west-1"
    pArgsEncFail.kms_arn 2 rfl rfl rfl rfl (by decide)

/-- Claim C4, counterexample to the claim as stated: an Info-level record
(severity 20, below Error at 40) is written to standard error, not standard
output, because the single handler's default stream is standard error. -/
theorem C4_counterexample :
    loggerEmit 20 20 "hello" = some (OutStream.stderr, "hello\n")
  ∧ (20 : Int) < 40
  ∧ OutStream.stderr ≠ OutStream.stdout := by decide

/-- Claim C4, amended: every record at or above the configured minimum level
(and at or above the handler level) is written to standard error regardless of
severity, terminated by a newline. -/
theorem C4_all_lines_to_stderr (loggerLevel levelno : Int) (rendered : String)
    (h1 : loggerLevel ≤ levelno) (h2 : handlerLevel ≤ levelno) :
    loggerEmit loggerLevel levelno rendered
      = some (OutStream.stderr, rendered ++ "\n") := by
  simp [loggerEmit, handlerStream, h1, h2]

/-- Witness for C4 at a Warning-level record. -/
theorem C4_witness :
    loggerEmit 20 30 "careful" = some (OutStream.stderr, "careful" ++ "\n") :=
  C4_all_lines_to_stderr 20 30 "careful" (by decide) (by decide)

/-- Claim C5, counterexample to the claim as stated: with the destination
existing and overwrite off but the KMS identifier missing, validation fails
with the missing-critical-values error, not the destination-collision
filesystem error. -/
theorem C5_counterexample :
    parseArgs wMissingKms = Except.error (PyError.missingCritical ["KMS_ARN"])
  ∧ wMissingKms.pathExists (destinationOf wMissingKms) = true
  ∧ wMissingKms.cli.overwrite = false
  ∧ PyError.missingCritical ["KMS_ARN"]
      ≠ PyError.fileExists ("File " ++ destinationOf wMissingKms ++ " already exists") := by
  refine ⟨rfl, rfl, rfl, by decide⟩

/-- Claim C5, amended: when the key and bucket identifiers are present and the
source exists, an existing destination with overwrite off makes validation
fail with the destination-collision filesystem error, the run performs no
metadata call, no copy, no encryption spawn and no upload — its only step is
the top-level error log — and it exits with code 1. -/
theorem C5_dest_collision_aborts (w : World)
    (hkms : pyStrMissing (kmsArnOf w) = false)
    (hs3 : pyStrMissing (s3BucketOf w) = false)
    (hsrc : w.pathExists w.cli.source = true)
    (hdest : w.pathExists (destinationOf w) = true)
    (hov : w.cli.overwrite = false) :
    parseArgs w = Except.error
      (PyError.fileExists ("File " ++ destinationOf w ++ " already exists"))
  ∧ program w = ([Action.logErrorLine], 1) := by
  have hp : parseArgs w = Except.error
      (PyError.fileExists ("File " ++ destinationOf w ++ " already exists")) := by
    unfold parseArgs
    simp [hkms, hs3, hsrc, hdest, hov]
  refine ⟨hp, ?_⟩
  simp [program, mainRun, hp]

/-- Witness for C5 on a concrete colliding run. -/
theorem C5_witness :
    parseArgs wCollision = Except.error
      (PyError.fileExists ("File " ++ destinationOf wCollision ++ " already exists"))
  ∧ program wCollision = ([Action.logErrorLine], 1) :=
  C5_dest_collision_aborts wCollision rfl rfl rfl rfl rfl

/-- Claim C6: the help text promises that the nocolor flag ensures colour-free
logs, but the logger's format strings are baked at module import — before
argument parsing — so with the environment variables unset the flag leaves
every ANSI token in place: a Warning line still renders wrapped in the green
and reset tokens, which differs from the colour-suppressed rendering the
environment-variable route produces. -/
theorem C6_nocolor_flag_ineffective :
    emitRendered (afterParseArgs (importTime none none) true) 30 "WARNING" "hello"
      = some ("\x1b[92m" ++ "WARNING: hello" ++ "\x1b[0m")
  ∧ emitRendered (importTime (some "1") none) 30 "WARNING" "hello"
      = some "WARNING: hello"
  ∧ ("\x1b[92m" ++ "WARNING: hello" ++ "\x1b[0m" : String) ≠ "WARNING: hello" := by
  refine ⟨by decide, by decide, by decide⟩

/-- Claim C7: when no destination argument is supplied, the destination
`parseArgs` validates and returns is the source path, a dot, the UTC
timestamp, the letter z, a dot, the context (defaulting to the fully-qualified
hostname), and the fixed suffix .enc. -/
theorem C7_destination_synthesis (w : World) (a : ParsedArgs)
    (hdest : w.cli.destination = none)
    (hp : parseArgs w = Except.ok a) :
    a.destination =
      w.cli.source ++ "." ++ w.utcTimestamp ++ "z."
        ++ (w.cli.contextFlag).getD w.fqdn ++ ".enc" := by
  simp only [parseArgs] at hp
  split_ifs at hp <;>
    first
      | exact Except.noConfusion hp
      | (simp only [Except.ok.injEq] at hp
         subst hp
         simp [destinationOf, contextOf, hdest])

/-- Witness for C7 on a concrete run with defaulted destination and context. -/
theorem C7_witness :
    pArgsSynth.destination =
      wSynth.cli.source ++ "." ++ wSynth.utcTimestamp ++ "z."
        ++ (wSynth.cli.contextFlag).getD wSynth.fqdn ++ ".enc" :=
  C7_destination_synthesis wSynth pArgsSynth rfl rfl

/-- Claim C8: the rule lookup is total on a non-empty ascending rule set — it
always yields some rule — and an event level strictly below every threshold
selects the first rule, which under the ascending order carries the lowest
threshold. -/
theorem C8_lookup_total (formats : List (Int × String)) (x : Int)
    (hne : formats ≠ [])
    (hs : List.Pairwise (fun a b : Int × String => a.1 < b.1) formats) :
    (LevelFormatter.format formats x).isSome = true
  ∧ ((∀ q ∈ formats, x < q.1) →
      LevelFormatter.format formats x = some (formats.head hne))
  ∧ (∀ q ∈ formats, (formats.head hne).1 ≤ q.1) := by
  refine ⟨format_isSome formats x hne, format_head formats x hne, ?_⟩
  intro q hq
  cases formats with
  | nil => exact absurd rfl hne
  | cons a tail =>
    rcases List.pairwise_cons.mp hs with ⟨ha, _⟩
    rcases List.mem_cons.mp hq with rfl | hq2
    · exact le_refl _
    · exact le_of_lt (ha q hq2)

/-- Witness for C8 on the logger's actual rules at level 3, below the lowest
threshold 5. -/
theorem C8_witness :
    (LevelFormatter.format loggerRulesColor 3).isSome = true
  ∧ LevelFormatter.format loggerRulesColor 3
      = some (loggerRulesColor.head (by decide)) := by
  have h := C8_lookup_total loggerRulesColor 3 (by decide) (by decide)
  exact ⟨h.1, h.2.1 (by decide)⟩

/-- Claim C9: the account-id extraction takes the fifth colon-separated field
of the instance-profile ARN; it succeeds exactly when the split has at least
five fields, and on a present ARN with fewer fields the key-completion step
ends in the index error, not the no-account-id resolution error. -/
theorem C9_account_id_indexing (iamArn : String) (w : World)
    (region kmsArn : String)
    (hin : w.iamInfoArn = some iamArn)
    (halias : pyStartsWith kmsArn "alias/" = true) :
    ((accountIdOfInstanceProfileArn iamArn).isSome
        ↔ 5 ≤ (pySplit iamArn ':').length)
  ∧ ((pySplit iamArn ':').length < 5 →
      (kmsResolve w region kmsArn).2 = Except.error PyError.indexError
      ∧ (kmsResolve w region kmsArn).2 ≠ Except.error PyError.noAccountId) := by
  constructor
  · unfold accountIdOfInstanceProfileArn
    rw [Option.isSome_iff_exists]
    constructor
    · rintro ⟨acc, hacc⟩
      rcases List.getElem?_eq_some_iff.mp hacc with ⟨h, _⟩
      omega
    · intro h
      exact ⟨(pySplit iamArn ':')[4], List.getElem?_eq_getElem (by omega)⟩
  · intro hlen
    have hnone : accountIdOfInstanceProfileArn iamArn = none := by
      unfold accountIdOfInstanceProfileArn
      rw [List.getElem?_eq_none]
      omega
    have hres : (kmsResolve w region kmsArn).2 = Except.error PyError.indexError := by
      unfold kmsResolve
      rw [halias]
      simp [hin, hnone]
    exact ⟨hres, by rw [hres]; simp⟩

/-- Witness for C9 on the three-colon ARN "arn:aws" (two fields). -/
theorem C9_witness :
    ((accountIdOfInstanceProfileArn "arn:aws").isSome
        ↔ 5 ≤ (pySplit "arn:aws" ':').length)
  ∧ ((pySplit "arn:aws" ':').length < 5 →
      (kmsResolve wIamShort "eu-west-1" "alias/my-key").2
          = Except.error PyError.indexError
      ∧ (kmsResolve wIamShort "eu-west-1" "alias/my-key").2
          ≠ Except.error PyError.noAccountId) :=
  C9_account_id_indexing "arn:aws" wIamShort "eu-west-1" "alias/my-key" rfl rfl

/-- Claim C10, counterexample to the claim as stated: with the lowercase
variable set to the empty string and the uppercase one set to the non-empty
string "1", colour stays enabled, although one of the variables is set to a
non-empty string. -/
theorem C10_counterexample :
    nocolorFromEnv (some "") (some "1") = false
  ∧ ("1" : String) ≠ "" := by decide

/-- Claim C10, amended: colour is disabled exactly when the lowercase variable
is set to a non-empty string, or is unset while the uppercase variable is set
to a non-empty string; string truthiness means values like False or 0 disable
colour; a set-but-empty lowercase variable shadows the uppercase one and
leaves colour enabled. -/
theorem C10_env_truthiness :
    (∀ lower upper : Option String,
      nocolorFromEnv lower upper = true ↔
        ((∃ s, lower = some s ∧ s ≠ "")
          ∨ (lower = none ∧ ∃ s, upper = some s ∧ s ≠ "")))
  ∧ nocolorFromEnv (some "False") none = true
  ∧ nocolorFromEnv (some "0") none = true
  ∧ nocolorFromEnv none (some "False") = true := by
  refine ⟨?_, by decide, by decide, by decide⟩
  intro lower upper
  cases lower <;> cases upper <;> simp [nocolorFromEnv]

/-- Witness for C10 at a concrete non-empty value. -/
theorem C10_witness : nocolorFromEnv (some "x") none = true :=
  (C10_env_truthiness.1 (some "x") none).mpr (Or.inl ⟨"x", rfl, by decide⟩)

end KmsShip
